import Mathlib

/- Verification of the trash-reminder-bot schedule-resolution logic
   (src/holiday_rules.py and src/main.py).

   Dates: Python `datetime.date` is modeled as a (year, month, day) triple and
   `date.toordinal()` is implemented as `Date.toOrd` (proleptic Gregorian day
   number; 0001-01-01 has ordinal 1 and is a Monday).  All date arithmetic the
   Python code performs with `timedelta`, date comparison and date-keyed dicts
   is carried out on ordinals, an injective representation of dates.
   `date.weekday()` is Monday = 0 .. Sunday = 6, and `strftime("%A")` is
   `weekdayName` of the weekday number. -/

namespace TrashBot

structure Date where
  year : Nat
  month : Nat
  day : Nat
deriving DecidableEq, Repr

/-- Gregorian leap-year test, as in Python's `calendar.isleap`. -/
def isLeap (y : Nat) : Bool :=
  (y % 4 == 0 && y % 100 != 0) || (y % 400 == 0)

/-- Number of days in a month (Python `calendar.monthrange` length). -/
def daysInMonth (y m : Nat) : Nat :=
  match m with
  | 1 => 31
  | 2 => if isLeap y then 29 else 28
  | 3 => 31
  | 4 => 30
  | 5 => 31
  | 6 => 30
  | 7 => 31
  | 8 => 31
  | 9 => 30
  | 10 => 31
  | 11 => 30
  | 12 => 31
  | _ => 0

/-- Days in all years before year `y` (CPython `datetime._days_before_year`). -/
def daysBeforeYear (y : Nat) : Nat :=
  365 * (y - 1) + (y - 1) / 4 - (y - 1) / 100 + (y - 1) / 400

/-- Days in year `y` before the first of month `m`
    (CPython `datetime._days_before_month`). -/
def daysBeforeMonth (y m : Nat) : Nat :=
  ((List.range (m - 1)).map (fun k => daysInMonth y (k + 1))).sum

/-- Python `date.toordinal()`: proleptic Gregorian ordinal, 0001-01-01 = 1. -/
def Date.toOrd (d : Date) : Nat :=
  daysBeforeYear d.year + daysBeforeMonth d.year d.month + d.day

/-- Weekday number of an ordinal, Monday = 0 .. Sunday = 6
    (ordinal 1, 0001-01-01, is a Monday, as in Python). -/
def weekdayNum (o : Nat) : Nat :=
  (o + 6) % 7

/-- Python `date.weekday()`. -/
def Date.weekday (d : Date) : Nat :=
  weekdayNum d.toOrd

/-- Python `date.strftime("%A")` as a function of `date.weekday()`. -/
def weekdayName (w : Nat) : String :=
  if w % 7 == 0 then "Monday"
  else if w % 7 == 1 then "Tuesday"
  else if w % 7 == 2 then "Wednesday"
  else if w % 7 == 3 then "Thursday"
  else if w % 7 == 4 then "Friday"
  else if w % 7 == 5 then "Saturday"
  else "Sunday"

/-- Ordinal of the Monday of the ISO week containing ordinal `o`
    (`monday_of` in src/main.py: `d - timedelta(days=d.weekday())`). -/
def mondayOrd (o : Nat) : Nat :=
  o - weekdayNum o

/-- Python dict lookup `dict.get(k)` for a dict written as a literal:
    the value of the first (only) entry whose key equals `k`. -/
def dictGet {κ α : Type} [BEq κ] (l : List (κ × α)) (k : κ) : Option α :=
  (l.find? (fun p => p.1 == k)).map Prod.snd

/-- HOLIDAY_SHIFT_RULES from src/holiday_rules.py, lines 12-41, verbatim. -/
def HOLIDAY_SHIFT_RULES : List (String × List (String × String)) :=
  [("Zone 1",
    [("Monday", "Tuesday"), ("Tuesday", "Monday"), ("Wednesday", "Monday"),
     ("Thursday", "Monday"), ("Friday", "Monday")]),
   ("Zone 2",
    [("Monday", "Wednesday"), ("Tuesday", "Wednesday"), ("Wednesday", "Tuesday"),
     ("Thursday", "Tuesday"), ("Friday", "Tuesday")]),
   ("Zone 3",
    [("Monday", "Thursday"), ("Tuesday", "Thursday"), ("Wednesday", "Thursday"),
     ("Thursday", "Wednesday"), ("Friday", "Wednesday")]),
   ("Zone 4",
    [("Monday", "Friday"), ("Tuesday", "Friday"), ("Wednesday", "Friday"),
     ("Thursday", "Friday"), ("Friday", "Thursday")])]

/-- get_shifted_collection_day from src/holiday_rules.py, lines 96-119.
    Returns the empty string (Python's falsy no-shift sentinel) for an unknown
    zone and for weekend holidays. -/
def get_shifted_collection_day (holiday_date : Date) (zone : String) : String :=
  match dictGet HOLIDAY_SHIFT_RULES zone with
  | none => ""
  | some zoneRules =>
    if weekdayName holiday_date.weekday == "Saturday"
        || weekdayName holiday_date.weekday == "Sunday" then ""
    else (dictGet zoneRules (weekdayName holiday_date.weekday)).getD ""

/-- Flattened cell list of Python `calendar.monthcalendar(y, m)` (firstweekday
    Monday): `f` leading zero cells (`f` = weekday of the 1st), the days
    1..n, then trailing zero cells completing the last week. -/
def calFlat (f n : Nat) : List Nat :=
  List.replicate f 0 ++ (List.range n).map (fun k => k + 1)
    ++ List.replicate ((7 - (f + n) % 7) % 7) 0

/-- The cell list reshaped into weeks of seven cells. -/
def calWeeks (f n : Nat) : List (List Nat) :=
  (List.range ((f + n + 6) / 7)).map
    (fun i => (List.range 7).map (fun j => (calFlat f n).getD (7 * i + j) 0))

/-- Python `calendar.monthcalendar(y, m)`: matrix of weeks, rows Monday-first,
    cells holding the day of month or 0 outside the month. -/
def monthcalendar (y m : Nat) : List (List Nat) :=
  calWeeks (Date.weekday ⟨y, m, 1⟩) (daysInMonth y m)

/-- Core of `nth_weekday_of_month`: scan the week rows of a calendar matrix.
    For n = -1 the scan runs over the weeks in reverse and takes the first
    nonzero cell in column `w`; otherwise it takes the n-th nonzero cell in
    column `w` in order.  `none` models the `raise ValueError` branch. -/
def nthFromCal (cal : List (List Nat)) (w : Nat) (n : Int) : Option Nat :=
  if n == -1 then
    (cal.reverse.find? (fun week => week.getD w 0 != 0)).map (fun week => week.getD w 0)
  else if 1 ≤ n then
    (cal.filterMap (fun week => if week.getD w 0 != 0 then some (week.getD w 0) else none)).get?
      (n.toNat - 1)
  else none

/-- nth_weekday_of_month from src/holiday_rules.py, lines 44-65. -/
def nth_weekday_of_month (year month weekday : Nat) (n : Int) : Option Date :=
  (nthFromCal (monthcalendar year month) weekday n).map (fun d => ⟨year, month, d⟩)

/-- calculate_federal_holidays from src/holiday_rules.py, lines 68-93.
    A holiday is a (name, date) pair; `none` models a propagated ValueError
    from `nth_weekday_of_month`. -/
def calculate_federal_holidays (year : Nat) : Option (List (String × Date)) := do
  let mlk ← nth_weekday_of_month year 1 0 3
  let mem ← nth_weekday_of_month year 5 0 (-1)
  let lab ← nth_weekday_of_month year 9 0 1
  let tg ← nth_weekday_of_month year 11 3 4
  pure [("New Year's Day", ⟨year, 1, 1⟩),
        ("Martin Luther King Jr. Day", mlk),
        ("Memorial Day", mem),
        ("Juneteenth", ⟨year, 6, 19⟩),
        ("Independence Day", ⟨year, 7, 4⟩),
        ("Labor Day", lab),
        ("Thanksgiving Day", tg),
        ("Christmas Day", ⟨year, 12, 25⟩)]

/-- get_all_holidays_for_year from src/holiday_rules.py, lines 122-127. -/
def get_all_holidays_for_year (year : Nat) : Option (List (String × Date)) :=
  calculate_federal_holidays year

/-- ZONE_URLS from src/main.py, lines 60-65 (only its key set matters to the
    control flow; values kept for fidelity). -/
def ZONE_URLS : List (String × String) :=
  [("Zone 1", "https://www.lowermerion.org/departments/public-works-department/refuse-and-recycling/holiday-collection/holiday-collection-zone-one"),
   ("Zone 2", "https://www.lowermerion.org/departments/public-works-department/refuse-and-recycling/holiday-collection/holiday-collection-zone-two"),
   ("Zone 3", "https://www.lowermerion.org/departments/public-works-department/refuse-and-recycling/holiday-collection/holiday-collection-zone-three"),
   ("Zone 4", "https://www.lowermerion.org/departments/public-works-department/refuse-and-recycling/holiday-collection/holiday-collection-zone-four")]

/-- The literal zone set `{"Zone 1","Zone 2","Zone 3","Zone 4"}` used by
    src/main.py (e.g. lines 502, 607, 725). -/
def ZONE_SET : List String :=
  ["Zone 1", "Zone 2", "Zone 3", "Zone 4"]

/-- One entry of the index built by `_scrape_zone_index`
    (src/main.py, lines 249-253): keys "date", "name", "weekday". -/
structure Entry where
  date : Date
  name : String
  weekday : String
deriving DecidableEq, Repr

/-- _scrape_zone_index from src/main.py, lines 218-255 (the rule-based
    index builder; `none` models a propagated ValueError from the holiday
    calculator). -/
def scrape_zone_index (zone : String) (year : Nat) : Option (List Entry) :=
  match get_all_holidays_for_year year with
  | none => none
  | some holidays =>
    if holidays.isEmpty then some []
    else some (holidays.map
      (fun h => ⟨h.2, h.1, get_shifted_collection_day h.2 zone⟩))

/-- get_next_holiday_shift from src/main.py, lines 257-288 (with an explicit
    `ref_date`, as every claim supplies one).  The outer Option models
    exception propagation (`none` = raises); the inner Option is the Python
    return value (`some none` = returns None). -/
def get_next_holiday_shift (zone : String) (ref_date : Date) : Option (Option String) :=
  if zone = "" ∨ dictGet ZONE_URLS zone = none then some none
  else
    match scrape_zone_index zone ref_date.year with
    | none => none
    | some idx =>
      some ((idx.find? (fun r =>
          decide (mondayOrd ref_date.toOrd ≤ r.date.toOrd
            ∧ r.date.toOrd ≤ mondayOrd ref_date.toOrd + 6))).map
        (fun r =>
          if r.weekday ≠ "" then
            r.name ++ " on " ++ weekdayName r.date.weekday
              ++ ". Pickup shifted to " ++ r.weekday ++ " this week."
          else
            r.name ++ " this week. Your regular pickup schedule is unchanged."))

/-- FIRST_PAPER_2026 from src/main.py, lines 301-305, with the default
    configuration RECYCLE_2026_FIRST_PAPER_ISO = "2026-01-05". -/
def FIRST_PAPER_2026 : Date :=
  ⟨2026, 1, 5⟩

/-- build_alternating_schedule from src/main.py, lines 119-125: a date-keyed
    dict (here: ordinal-keyed association list with pairwise distinct keys). -/
def build_alternating_schedule (start_monday : Nat) (weeks : Nat) : List (Nat × String) :=
  (List.range weeks).map
    (fun i => (start_monday + 7 * i, if i % 2 == 0 then "Paper" else "Commingled"))

/-- RECYCLING_SCHEDULE from src/main.py, lines 307-311. -/
def RECYCLING_SCHEDULE : List (Nat × String) :=
  build_alternating_schedule FIRST_PAPER_2026.toOrd 53

/-- get_recycling_type_for_date from src/main.py, lines 313-316, as a function
    of the date's ordinal. -/
def recyclingTypeOfOrd (o : Nat) : String :=
  (dictGet RECYCLING_SCHEDULE (mondayOrd o)).getD "Paper"

/-- get_recycling_type_for_date from src/main.py, lines 313-316. -/
def get_recycling_type_for_date (d : Date) : String :=
  recyclingTypeOfOrd d.toOrd

/-- Zero-padded decimal rendering used by Python `date.isoformat()`. -/
def padTo (len n : Nat) : String :=
  String.mk (List.replicate (len - (toString n).length) '0') ++ toString n

/-- Python `date.isoformat()`: "YYYY-MM-DD". -/
def Date.isoformat (d : Date) : String :=
  padTo 4 d.year ++ "-" ++ padTo 2 d.month ++ "-" ++ padTo 2 d.day

/-- holiday_note_from_overrides from src/main.py, lines 415-418.  The
    HOLIDAY_OVERRIDES table is environment-supplied JSON configuration
    `{iso_date: {zone: note}}`, modeled as the lookup function `OV`. -/
def holiday_note_from_overrides (OV : String → String → Option String)
    (zone : String) (d : Date) : Option String :=
  if zone = "" then none else OV d.isoformat zone

/-- Year of the date with ordinal `o` (CPython `_ord2ymd`, year part),
    needed for `wk_mon.year` in us_holiday_in_week. -/
def yearOfOrd (o : Nat) : Nat :=
  let n := o - 1
  let n400 := n / 146097
  let r400 := n % 146097
  let n100 := r400 / 36524
  let r100 := r400 % 36524
  let n4 := r100 / 1461
  let r4 := r100 % 1461
  let n1 := r4 / 365
  let year := 400 * n400 + 100 * n100 + 4 * n4 + n1 + 1
  if n1 == 4 || n100 == 4 then year - 1 else year

/-- Days of month `m` of year `y` whose weekday is `w`, ascending: what
    `calendar.Calendar().itermonthdates` filtered to the month yields in
    us_holiday_in_week (src/main.py, lines 435-440). -/
def monthWeekdayDays (y m w : Nat) : List Nat :=
  (((List.range (daysInMonth y m)).map (fun k => k + 1)).filter
    (fun d => Date.weekday ⟨y, m, d⟩ == w))

/-- us_holiday_in_week from src/main.py, lines 420-448. -/
def us_holiday_in_week (d : Date) : Option String :=
  let wkMon := mondayOrd d.toOrd
  let wkSun := wkMon + 6
  let y := yearOfOrd wkMon
  let inWeekFixed := fun (m dd : Nat) =>
    decide (wkMon ≤ Date.toOrd ⟨y, m, dd⟩ ∧ Date.toOrd ⟨y, m, dd⟩ ≤ wkSun)
  let inWeekNth := fun (m w n : Nat) =>
    match (monthWeekdayDays y m w).get? (n - 1) with
    | some t => decide (wkMon ≤ Date.toOrd ⟨y, m, t⟩ ∧ Date.toOrd ⟨y, m, t⟩ ≤ wkSun)
    | none => false
  let inWeekLast := fun (m w : Nat) =>
    match (monthWeekdayDays y m w).getLast? with
    | some t => decide (wkMon ≤ Date.toOrd ⟨y, m, t⟩ ∧ Date.toOrd ⟨y, m, t⟩ ≤ wkSun)
    | none => false
  if inWeekFixed 1 1 then some "New Year's Day"
  else if inWeekFixed 6 19 then some "Juneteenth"
  else if inWeekFixed 7 4 then some "Independence Day"
  else if inWeekFixed 11 11 then some "Veterans Day"
  else if inWeekFixed 12 25 then some "Christmas Day"
  else if inWeekNth 1 0 3 then some "Martin Luther King Jr. Day"
  else if inWeekNth 2 0 3 then some "Presidents Day"
  else if inWeekLast 5 0 then some "Memorial Day"
  else if inWeekNth 9 0 1 then some "Labor Day"
  else if inWeekNth 10 0 2 then some "Columbus/Indigenous Peoples Day"
  else if inWeekNth 11 3 4 then some "Thanksgiving Day"
  else none

/-- holiday_note_from_rules from src/main.py, lines 450-457.  The
    HOLIDAY_RULES table is environment-supplied JSON configuration
    `{zone: {holiday_name: weekday}}`, modeled as the lookup function
    `RULES`. -/
def holiday_note_from_rules (RULES : String → String → Option String)
    (zone : String) (d : Date) : Option String :=
  if zone = "" then none
  else
    match us_holiday_in_week d with
    | none => none
    | some name =>
      match RULES zone name with
      | some wd =>
        if wd ≠ "" then some (name ++ ": collection on " ++ wd ++ ".")
        else some (name ++ ": collection may shift.")
      | none => some (name ++ ": collection may shift.")

/-- Holiday-note computation of the reminder pipeline, send_weekly_reminders
    in src/main.py, lines 723-745: overrides, then the rule-based index
    (whose exceptions are caught and treated as no note), then the local
    rules fallback; zones outside the fixed set get no note. -/
def pipeline_holiday_note (OV RULES : String → String → Option String)
    (zone : String) (tomorrow : Date) : Option String :=
  if zone ∈ ZONE_SET then
    match holiday_note_from_overrides OV zone tomorrow with
    | some s => some s
    | none =>
      match get_next_holiday_shift zone tomorrow with
      | some (some s) => some s
      | _ => holiday_note_from_rules RULES zone tomorrow
  else none

/-- Bool check that `nthFromCal` on a month whose first day has weekday `f`
    and which has `nd` days finds a day, that this day is at least 1, and that
    its weekday offset from `f` is the target weekday `tw`. -/
def nthOk (f nd w : Nat) (n : Int) (tw : Nat) : Bool :=
  match nthFromCal (calWeeks f nd) w n with
  | some d => ((f + (d - 1)) % 7 == tw) && decide (1 ≤ d)
  | none => false

/-- A weekday number is below 7. -/
lemma weekday_lt_seven (d : Date) : d.weekday < 7 := by
  unfold Date.weekday weekdayNum
  omega

/-- get_shifted_collection_day depends on the date only through its weekday. -/
lemma gscd_congr (d e : Date) (zone : String) (h : d.weekday = e.weekday) :
    get_shifted_collection_day d zone = get_shifted_collection_day e zone := by
  unfold get_shifted_collection_day
  rw [h]

/-- The date 0001-01-(1+w) has weekday `w` for w < 7 (0001-01-01 is a
    Monday). -/
lemma weekday_probe (w : Nat) (hw : w < 7) : Date.weekday ⟨1, 1, 1 + w⟩ = w := by
  unfold Date.weekday weekdayNum Date.toOrd daysBeforeYear daysBeforeMonth
  simp
  omega

/-- Evaluating get_shifted_collection_day at a probe date of the same
    weekday. -/
lemma gscd_eq_probe (d : Date) (zone : String) :
    get_shifted_collection_day d zone
      = get_shifted_collection_day ⟨1, 1, 1 + d.weekday⟩ zone :=
  gscd_congr _ _ _ (weekday_probe d.weekday (weekday_lt_seven d)).symm

/-- For a known zone and a weekday Monday..Friday, the shift result is one of
    the five weekday names and is exactly the entry of HOLIDAY_SHIFT_RULES. -/
lemma gscd_table : ∀ z ∈ ZONE_SET, ∀ w, w < 5 →
    (get_shifted_collection_day ⟨1, 1, 1 + w⟩ z
        ∈ ["Monday", "Tuesday", "Wednesday", "Thursday", "Friday"]
      ∧ some (get_shifted_collection_day ⟨1, 1, 1 + w⟩ z)
        = (dictGet HOLIDAY_SHIFT_RULES z).bind (fun t => dictGet t (weekdayName w))) := by
  decide

/-- For a known zone, the shift result is empty exactly for weekend
    weekdays (probe-date form). -/
lemma gscd_empty_iff : ∀ z ∈ ZONE_SET, ∀ w, w < 7 →
    ((get_shifted_collection_day ⟨1, 1, 1 + w⟩ z = "") ↔ 5 ≤ w) := by
  decide

/-- For a known zone, the shift result is empty exactly on weekends. -/
lemma gscd_empty_iff_date (zone : String) (hz : zone ∈ ZONE_SET) (d : Date) :
    get_shifted_collection_day d zone = "" ↔ 5 ≤ d.weekday := by
  rw [gscd_eq_probe d zone]
  exact gscd_empty_iff zone hz d.weekday (weekday_lt_seven d)

/-- find? over a mapped list is the mapped find? of the composed predicate. -/
lemma list_find_over_map {α β : Type} (f : α → β) (p : β → Bool) (l : List α) :
    (l.map f).find? p = (l.find? (fun a => p (f a))).map f := by
  induction l with
  | nil => rfl
  | cons a t ih =>
    simp only [List.map_cons, List.find?]
    cases h : p (f a)
    · simpa [h] using ih
    · simp [h]

/-- The per-week lookup of RECYCLING_SCHEDULE at each of its 53 Mondays. -/
lemma sched_lookup : ∀ i, i < 53 →
    dictGet RECYCLING_SCHEDULE (FIRST_PAPER_2026.toOrd + 7 * i)
      = some (if i % 2 == 0 then "Paper" else "Commingled") := by
  decide

/-- nthFromCal finds the 3rd Monday of a 31-day month for every possible
    first-day weekday, and it lands on a Monday. -/
lemma nthOk_mlk : ∀ f, f < 7 → nthOk f 31 0 3 0 = true := by
  decide

/-- nthFromCal finds the last Monday of a 31-day month for every possible
    first-day weekday, and it lands on a Monday. -/
lemma nthOk_mem : ∀ f, f < 7 → nthOk f 31 0 (-1) 0 = true := by
  decide

/-- nthFromCal finds the 1st Monday of a 30-day month for every possible
    first-day weekday, and it lands on a Monday. -/
lemma nthOk_lab : ∀ f, f < 7 → nthOk f 30 0 1 0 = true := by
  decide

/-- nthFromCal finds the 4th Thursday of a 30-day month for every possible
    first-day weekday, and it lands on a Thursday. -/
lemma nthOk_tg : ∀ f, f < 7 → nthOk f 30 3 4 3 = true := by
  decide

/-- Unpacking a successful nthOk check. -/
lemma nthOk_spec (f nd w : Nat) (n : Int) (tw : Nat) (h : nthOk f nd w n tw = true) :
    ∃ d, nthFromCal (calWeeks f nd) w n = some d ∧ (f + (d - 1)) % 7 = tw ∧ 1 ≤ d := by
  unfold nthOk at h
  cases heq : nthFromCal (calWeeks f nd) w n with
  | none => rw [heq] at h; cases h
  | some d =>
    rw [heq] at h
    simp only [Bool.and_eq_true, beq_iff_eq, decide_eq_true_eq] at h
    exact ⟨d, rfl, h.1, h.2⟩

/-- The ordinal of day `d` of a month, relative to the month's first day. -/
lemma toOrd_day (y m d : Nat) (hd : 1 ≤ d) :
    Date.toOrd ⟨y, m, d⟩ = Date.toOrd ⟨y, m, 1⟩ + (d - 1) := by
  unfold Date.toOrd
  simp only
  omega

/-- The weekday of day `d` of a month, relative to the month's first day. -/
lemma weekday_day (y m d : Nat) (hd : 1 ≤ d) :
    Date.weekday ⟨y, m, d⟩ = (Date.weekday ⟨y, m, 1⟩ + (d - 1)) % 7 := by
  unfold Date.weekday weekdayNum
  rw [toOrd_day y m d hd]
  omega

/-- nth_weekday_of_month returns a date of the requested weekday whenever the
    corresponding nthOk check holds. -/
lemma nth_weekday_correct (y m w : Nat) (n : Int) (tw : Nat)
    (h : nthOk (Date.weekday ⟨y, m, 1⟩) (daysInMonth y m) w n tw = true) :
    ∃ dd : Date, nth_weekday_of_month y m w n = some dd
      ∧ dd.weekday = tw ∧ dd.year = y ∧ dd.month = m := by
  obtain ⟨d, hfind, hmod, hd⟩ := nthOk_spec _ _ _ _ _ h
  refine ⟨⟨y, m, d⟩, ?_, ?_, rfl, rfl⟩
  · unfold nth_weekday_of_month monthcalendar
    rw [hfind]
    rfl
  · rw [weekday_day y m d hd, hmod]

/-- calculate_federal_holidays always succeeds and returns the eight-entry
    list, with the four floating holidays landing on their rules' weekdays. -/
lemma calc_holidays (y : Nat) :
    ∃ mlk mem lab tg : Date,
      calculate_federal_holidays y
        = some [("New Year's Day", ⟨y, 1, 1⟩), ("Martin Luther King Jr. Day", mlk),
                ("Memorial Day", mem), ("Juneteenth", ⟨y, 6, 19⟩),
                ("Independence Day", ⟨y, 7, 4⟩), ("Labor Day", lab),
                ("Thanksgiving Day", tg), ("Christmas Day", ⟨y, 12, 25⟩)]
      ∧ mlk.weekday = 0 ∧ mem.weekday = 0 ∧ lab.weekday = 0 ∧ tg.weekday = 3 := by
  obtain ⟨mlk, e1, w1, -, -⟩ :=
    nth_weekday_correct y 1 0 3 0 (nthOk_mlk _ (weekday_lt_seven _))
  obtain ⟨mem, e2, w2, -, -⟩ :=
    nth_weekday_correct y 5 0 (-1) 0 (nthOk_mem _ (weekday_lt_seven _))
  obtain ⟨lab, e3, w3, -, -⟩ :=
    nth_weekday_correct y 9 0 1 0 (nthOk_lab _ (weekday_lt_seven _))
  obtain ⟨tg, e4, w4, -, -⟩ :=
    nth_weekday_correct y 11 3 4 3 (nthOk_tg _ (weekday_lt_seven _))
  refine ⟨mlk, mem, lab, tg, ?_, w1, w2, w3, w4⟩
  unfold calculate_federal_holidays
  rw [e1, e2, e3, e4]
  rfl

/-- A zone of the fixed set is a key of ZONE_URLS and is nonempty. -/
lemma zone_urls_hit (zone : String) (hz : zone ∈ ZONE_SET) :
    ¬(zone = "" ∨ dictGet ZONE_URLS zone = none) := by
  have hcases : zone = "Zone 1" ∨ zone = "Zone 2" ∨ zone = "Zone 3" ∨ zone = "Zone 4" := by
    simpa [ZONE_SET] using hz
  rcases hcases with rfl | rfl | rfl | rfl <;> decide

/-- Evaluation of get_next_holiday_shift for a known zone once the holiday
    list of the year is known: the first holiday of the list whose date falls
    in the ISO week of `ref`, formatted per the shift table. -/
lemma get_next_eq (zone : String) (hz : zone ∈ ZONE_SET) (ref : Date)
    (hs : List (String × Date)) (hc : calculate_federal_holidays ref.year = some hs)
    (hne : hs ≠ []) :
    get_next_holiday_shift zone ref
      = some ((hs.find? (fun p => decide (mondayOrd ref.toOrd ≤ p.2.toOrd
            ∧ p.2.toOrd ≤ mondayOrd ref.toOrd + 6))).map
          (fun p =>
            if get_shifted_collection_day p.2 zone ≠ "" then
              p.1 ++ " on " ++ weekdayName p.2.weekday ++ ". Pickup shifted to "
                ++ get_shifted_collection_day p.2 zone ++ " this week."
            else
              p.1 ++ " this week. Your regular pickup schedule is unchanged.")) := by
  unfold get_next_holiday_shift scrape_zone_index get_all_holidays_for_year
  rw [if_neg (zone_urls_hit zone hz), hc]
  have hemp : hs.isEmpty = false := by
    cases hs with
    | nil => exact absurd rfl hne
    | cons a t => rfl
  simp only [hemp, Bool.false_eq_true, if_false]
  rw [list_find_over_map, Option.map_map]
  rfl

/-- C1: for every holiday date falling on a weekday Monday..Friday and every
    zone of the fixed set, get_shifted_collection_day returns a weekday that
    is itself Monday..Friday, equal to the HOLIDAY_SHIFT_RULES entry for
    (zone, weekday of the date); in particular Christmas Day 2025
    (2025-12-25, a Thursday) yields Monday for Zone 1, Tuesday for Zone 2,
    Wednesday for Zone 3 and Friday for Zone 4. -/
theorem trash_C1 :
    (∀ (d : Date) (zone : String), zone ∈ ZONE_SET → d.weekday < 5 →
      get_shifted_collection_day d zone
          ∈ ["Monday", "Tuesday", "Wednesday", "Thursday", "Friday"]
        ∧ some (get_shifted_collection_day d zone)
          = (dictGet HOLIDAY_SHIFT_RULES zone).bind
              (fun t => dictGet t (weekdayName d.weekday)))
    ∧ Date.weekday ⟨2025, 12, 25⟩ = 3
    ∧ get_shifted_collection_day ⟨2025, 12, 25⟩ "Zone 1" = "Monday"
    ∧ get_shifted_collection_day ⟨2025, 12, 25⟩ "Zone 2" = "Tuesday"
    ∧ get_shifted_collection_day ⟨2025, 12, 25⟩ "Zone 3" = "Wednesday"
    ∧ get_shifted_collection_day ⟨2025, 12, 25⟩ "Zone 4" = "Friday" := by
  refine ⟨?_, by decide, by decide, by decide, by decide, by decide⟩
  intro d zone hz hw
  rw [gscd_eq_probe d zone]
  exact gscd_table zone hz d.weekday hw

/-- Witness for C1, instantiated at Thanksgiving Day 2026 (a Thursday) and
    Zone 4. -/
theorem trash_C1_witness :
    get_shifted_collection_day ⟨2026, 11, 26⟩ "Zone 4"
        ∈ ["Monday", "Tuesday", "Wednesday", "Thursday", "Friday"]
      ∧ some (get_shifted_collection_day ⟨2026, 11, 26⟩ "Zone 4")
        = (dictGet HOLIDAY_SHIFT_RULES "Zone 4").bind
            (fun t => dictGet t (weekdayName (Date.weekday ⟨2026, 11, 26⟩))) :=
  trash_C1.1 ⟨2026, 11, 26⟩ "Zone 4" (by decide) (by decide)

/-- C2 counterexample: 2025-12-29 is exactly seven days before the anchor
    Monday 2026-01-05, yet both weeks are classified "Paper", because the
    generated schedule is a 53-week table defaulting to "Paper" outside it;
    so recycling_type(D) differs from recycling_type(D + 7 days) fails for
    dates before the anchor. -/
theorem trash_C2_counterexample :
    Date.toOrd ⟨2026, 1, 5⟩ = Date.toOrd ⟨2025, 12, 29⟩ + 7
      ∧ get_recycling_type_for_date ⟨2025, 12, 29⟩
        = get_recycling_type_for_date ⟨2026, 1, 5⟩ := by
  decide

/-- C2 amended: the two-week alternation holds for the weeks covered by the
    generated table: whenever the ISO-week Monday of an (ordinal-represented)
    date is the i-th table Monday and the two following weeks are still in
    the 53-week table, the recycling type differs one week later and repeats
    two weeks later.  Outside the table the hard-coded "Paper" default breaks
    strict alternation. -/
theorem trash_C2_amended (o i : Nat) (hi : i + 2 < 53)
    (h : mondayOrd o = FIRST_PAPER_2026.toOrd + 7 * i) :
    recyclingTypeOfOrd o ≠ recyclingTypeOfOrd (o + 7)
      ∧ recyclingTypeOfOrd o = recyclingTypeOfOrd (o + 14) := by
  have hA : FIRST_PAPER_2026.toOrd = 739621 := by decide
  rw [hA] at h
  have h7 : mondayOrd (o + 7) = mondayOrd o + 7 := by
    unfold mondayOrd weekdayNum at h ⊢
    omega
  have h14 : mondayOrd (o + 14) = mondayOrd o + 14 := by
    unfold mondayOrd weekdayNum at h ⊢
    omega
  have e0 := sched_lookup i (by omega)
  have e1 := sched_lookup (i + 1) (by omega)
  have e2 := sched_lookup (i + 2) (by omega)
  rw [hA] at e0 e1 e2
  have k1 : 739621 + 7 * i + 7 = 739621 + 7 * (i + 1) := by ring
  have k2 : 739621 + 7 * i + 14 = 739621 + 7 * (i + 2) := by ring
  unfold recyclingTypeOfOrd
  rw [h7, h14, h, k1, k2, e0, e1, e2]
  have hpar : i % 2 = 0 ∨ i % 2 = 1 := by omega
  rcases hpar with hp | hp
  · have q1 : (i + 1) % 2 = 1 := by omega
    have q2 : (i + 2) % 2 = 0 := by omega
    simp [hp, q1, q2]
  · have q1 : (i + 1) % 2 = 0 := by omega
    have q2 : (i + 2) % 2 = 1 := by omega
    simp [hp, q1, q2]

/-- Witness for the amended C2, at the anchor Monday itself (ordinal 739621
    is 2026-01-05, table week 0). -/
theorem trash_C2_amended_witness :
    recyclingTypeOfOrd 739621 ≠ recyclingTypeOfOrd (739621 + 7)
      ∧ recyclingTypeOfOrd 739621 = recyclingTypeOfOrd (739621 + 14) :=
  trash_C2_amended 739621 0 (by decide) (by decide)

/-- C3 counterexample: for reference date 2026-12-29 (a Tuesday) the ISO week
    runs 2026-12-28 .. 2027-01-03 and contains the recognized holiday New
    Year's Day 2027-01-01, yet get_next_holiday_shift returns None, because
    it only enumerates the holidays of reference_date.year (2026). -/
theorem trash_C3_counterexample :
    get_next_holiday_shift "Zone 1" ⟨2026, 12, 29⟩ = some none
      ∧ ("New Year's Day", (⟨2027, 1, 1⟩ : Date))
        ∈ (calculate_federal_holidays 2027).getD []
      ∧ mondayOrd (Date.toOrd ⟨2026, 12, 29⟩) ≤ Date.toOrd ⟨2027, 1, 1⟩
      ∧ Date.toOrd ⟨2027, 1, 1⟩ ≤ mondayOrd (Date.toOrd ⟨2026, 12, 29⟩) + 6 := by
  decide

/-- C3 amended: for every zone of the fixed set and every reference date, if
    some recognized holiday of reference_date.year falls within the ISO week
    (Monday..Sunday) containing the reference date, then
    get_next_holiday_shift returns a non-null note (and does not raise).
    Holidays whose calendar year differs from reference_date.year are not
    detected (see the counterexample). -/
theorem trash_C3_amended (zone : String) (hz : zone ∈ ZONE_SET) (ref : Date)
    (h : ∃ p ∈ (calculate_federal_holidays ref.year).getD [],
      mondayOrd ref.toOrd ≤ p.2.toOrd ∧ p.2.toOrd ≤ mondayOrd ref.toOrd + 6) :
    ∃ s, get_next_holiday_shift zone ref = some (some s) := by
  obtain ⟨mlk, mem, lab, tg, hc, -, -, -, -⟩ := calc_holidays ref.year
  rw [get_next_eq zone hz ref _ hc (by simp)]
  rw [hc] at h
  obtain ⟨p, hp, hin⟩ := h
  have hsome : (List.find? (fun p => decide (mondayOrd ref.toOrd ≤ p.2.toOrd
      ∧ p.2.toOrd ≤ mondayOrd ref.toOrd + 6))
        [("New Year's Day", (⟨ref.year, 1, 1⟩ : Date)), ("Martin Luther King Jr. Day", mlk),
         ("Memorial Day", mem), ("Juneteenth", ⟨ref.year, 6, 19⟩),
         ("Independence Day", ⟨ref.year, 7, 4⟩), ("Labor Day", lab),
         ("Thanksgiving Day", tg), ("Christmas Day", ⟨ref.year, 12, 25⟩)]).isSome := by
    rw [List.find?_isSome]
    exact ⟨p, by simpa using hp, by simpa using hin⟩
  obtain ⟨q, hq⟩ := Option.isSome_iff_exists.mp hsome
  rw [hq]
  exact ⟨_, rfl⟩

/-- Witness for the amended C3, at Zone 3 in the week of Christmas 2025. -/
theorem trash_C3_amended_witness :
    ∃ s, get_next_holiday_shift "Zone 3" ⟨2025, 12, 25⟩ = some (some s) :=
  trash_C3_amended "Zone 3" (by decide) ⟨2025, 12, 25⟩ (by decide)

/-- C4: for every holiday date falling on Saturday or Sunday and every zone
    string, get_shifted_collection_day returns the empty string (the code's
    no-shift null); Independence Day 2026 (2026-07-04) is a Saturday, yields
    no shift for all four zones, and the holiday note for that week uses the
    "regular pickup schedule is unchanged" wording. -/
theorem trash_C4 :
    (∀ (d : Date) (zone : String), 5 ≤ d.weekday →
      get_shifted_collection_day d zone = "")
    ∧ Date.weekday ⟨2026, 7, 4⟩ = 5
    ∧ (∀ z ∈ ZONE_SET,
        get_shifted_collection_day ⟨2026, 7, 4⟩ z = ""
        ∧ get_next_holiday_shift z ⟨2026, 7, 4⟩
          = some (some "Independence Day this week. Your regular pickup schedule is unchanged.")) := by
  refine ⟨?_, by decide, by decide⟩
  intro d zone h
  have h7 := weekday_lt_seven d
  have hcases : d.weekday = 5 ∨ d.weekday = 6 := by omega
  unfold get_shifted_collection_day
  rcases hcases with h5 | h5 <;> rw [h5] <;>
    cases dictGet HOLIDAY_SHIFT_RULES zone <;> simp [weekdayName]

/-- Witness for C4's universally quantified part, at the Sunday 2026-07-05
    and an undefined zone string. -/
theorem trash_C4_witness :
    get_shifted_collection_day ⟨2026, 7, 5⟩ "Zone 9" = "" :=
  trash_C4.1 ⟨2026, 7, 5⟩ "Zone 9" (by decide)

/-- C5: whenever the override table has an entry for the exact ISO date and
    zone, the holiday note computed by the reminder pipeline
    (send_weekly_reminders) is exactly that override string, regardless of
    the rule tables and of what the computed holiday logic would produce. -/
theorem trash_C5 (OV RULES : String → String → Option String) (zone : String)
    (d : Date) (s : String) (hz : zone ∈ ZONE_SET)
    (hov : OV d.isoformat zone = some s) :
    pipeline_holiday_note OV RULES zone d = some s := by
  have hne : zone ≠ "" := by
    intro he
    rw [he] at hz
    exact absurd hz (by decide)
  unfold pipeline_holiday_note holiday_note_from_overrides
  rw [if_pos hz, if_neg hne, hov]

/-- Witness for C5: an override for Zone 2 on 2026-03-10 beats the computed
    rules. -/
theorem trash_C5_witness :
    pipeline_holiday_note
      (fun i z => if i = "2026-03-10" ∧ z = "Zone 2" then some "Special collection note" else none)
      (fun _ _ => none) "Zone 2" ⟨2026, 3, 10⟩ = some "Special collection note" :=
  trash_C5 _ _ "Zone 2" ⟨2026, 3, 10⟩ "Special collection note" (by decide) (by decide)

/-- C6: for every zone of the fixed set and every reference date,
    get_next_holiday_shift never raises; when the first recognized holiday of
    reference_date.year falling in the ISO week exists it returns exactly
    "{name} on {weekday}. Pickup shifted to {shifted day} this week." if the
    holiday is on a weekday (a shift always exists then), and exactly
    "{name} this week. Your regular pickup schedule is unchanged." if the
    holiday falls on a weekend; it returns None when no holiday of that year
    falls in the week. -/
theorem trash_C6 (zone : String) (hz : zone ∈ ZONE_SET) (ref : Date) :
    ∃ r, get_next_holiday_shift zone ref = some r
      ∧ ((∀ p ∈ (calculate_federal_holidays ref.year).getD [],
            ¬(mondayOrd ref.toOrd ≤ p.2.toOrd ∧ p.2.toOrd ≤ mondayOrd ref.toOrd + 6))
          → r = none)
      ∧ ∀ p, ((calculate_federal_holidays ref.year).getD []).find?
            (fun q => decide (mondayOrd ref.toOrd ≤ q.2.toOrd
              ∧ q.2.toOrd ≤ mondayOrd ref.toOrd + 6)) = some p →
          (p.2.weekday < 5 →
            r = some (p.1 ++ " on " ++ weekdayName p.2.weekday
              ++ ". Pickup shifted to " ++ get_shifted_collection_day p.2 zone
              ++ " this week."))
          ∧ (5 ≤ p.2.weekday →
            r = some (p.1 ++ " this week. Your regular pickup schedule is unchanged.")) := by
  obtain ⟨mlk, mem, lab, tg, hc, -, -, -, -⟩ := calc_holidays ref.year
  rw [get_next_eq zone hz ref _ hc (by simp)]
  rw [hc]
  simp only [Option.getD_some]
  refine ⟨_, rfl, ?_, ?_⟩
  · intro hnone
    have : (List.find? (fun q => decide (mondayOrd ref.toOrd ≤ q.2.toOrd
        ∧ q.2.toOrd ≤ mondayOrd ref.toOrd + 6))
          [("New Year's Day", (⟨ref.year, 1, 1⟩ : Date)), ("Martin Luther King Jr. Day", mlk),
           ("Memorial Day", mem), ("Juneteenth", ⟨ref.year, 6, 19⟩),
           ("Independence Day", ⟨ref.year, 7, 4⟩), ("Labor Day", lab),
           ("Thanksgiving Day", tg), ("Christmas Day", ⟨ref.year, 12, 25⟩)]) = none := by
      rw [List.find?_eq_none]
      intro q hq
      simpa using hnone q hq
    rw [this]
    rfl
  · intro p hfind
    rw [hfind]
    constructor
    · intro hwk
      have hne : get_shifted_collection_day p.2 zone ≠ "" := by
        rw [Ne, gscd_empty_iff_date zone hz p.2]
        omega
      exact congrArg some (if_pos hne)
    · intro hwk
      have heq : get_shifted_collection_day p.2 zone = "" :=
        (gscd_empty_iff_date zone hz p.2).mpr hwk
      exact congrArg some (if_neg (not_not_intro heq))

/-- Witness for C6, at Zone 1 in the week of Christmas 2025. -/
theorem trash_C6_witness :
    ∃ r, get_next_holiday_shift "Zone 1" ⟨2025, 12, 25⟩ = some r
      ∧ ((∀ p ∈ (calculate_federal_holidays (Date.year ⟨2025, 12, 25⟩)).getD [],
            ¬(mondayOrd (Date.toOrd ⟨2025, 12, 25⟩) ≤ p.2.toOrd
              ∧ p.2.toOrd ≤ mondayOrd (Date.toOrd ⟨2025, 12, 25⟩) + 6))
          → r = none)
      ∧ ∀ p, ((calculate_federal_holidays (Date.year ⟨2025, 12, 25⟩)).getD []).find?
            (fun q => decide (mondayOrd (Date.toOrd ⟨2025, 12, 25⟩) ≤ q.2.toOrd
              ∧ q.2.toOrd ≤ mondayOrd (Date.toOrd ⟨2025, 12, 25⟩) + 6)) = some p →
          (p.2.weekday < 5 →
            r = some (p.1 ++ " on " ++ weekdayName p.2.weekday
              ++ ". Pickup shifted to " ++ get_shifted_collection_day p.2 "Zone 1"
              ++ " this week."))
          ∧ (5 ≤ p.2.weekday →
            r = some (p.1 ++ " this week. Your regular pickup schedule is unchanged.")) :=
  trash_C6 "Zone 1" (by decide) ⟨2025, 12, 25⟩

/-- C7: calculate_federal_holidays is a pure function (deterministic by
    construction); for every year 1..9999 it succeeds and returns exactly the
    eight configured holidays, in order, and each floating holiday lands on
    the weekday its rule requires: MLK Day, Memorial Day and Labor Day on
    Mondays (weekday 0), Thanksgiving Day on a Thursday (weekday 3). -/
theorem trash_C7 (y : Nat) (h1 : 1 ≤ y) (h2 : y ≤ 9999) :
    ∃ hs mlk mem lab tg,
      calculate_federal_holidays y = some hs
      ∧ hs = [("New Year's Day", (⟨y, 1, 1⟩ : Date)), ("Martin Luther King Jr. Day", mlk),
              ("Memorial Day", mem), ("Juneteenth", ⟨y, 6, 19⟩),
              ("Independence Day", ⟨y, 7, 4⟩), ("Labor Day", lab),
              ("Thanksgiving Day", tg), ("Christmas Day", ⟨y, 12, 25⟩)]
      ∧ hs.length = 8
      ∧ mlk.weekday = 0 ∧ mem.weekday = 0 ∧ lab.weekday = 0 ∧ tg.weekday = 3 := by
  obtain ⟨mlk, mem, lab, tg, hc, w1, w2, w3, w4⟩ := calc_holidays y
  exact ⟨_, mlk, mem, lab, tg, hc, rfl, rfl, w1, w2, w3, w4⟩

/-- Witness for C7 at the year 2026. -/
theorem trash_C7_witness :
    ∃ hs mlk mem lab tg,
      calculate_federal_holidays 2026 = some hs
      ∧ hs = [("New Year's Day", (⟨2026, 1, 1⟩ : Date)), ("Martin Luther King Jr. Day", mlk),
              ("Memorial Day", mem), ("Juneteenth", ⟨2026, 6, 19⟩),
              ("Independence Day", ⟨2026, 7, 4⟩), ("Labor Day", lab),
              ("Thanksgiving Day", tg), ("Christmas Day", ⟨2026, 12, 25⟩)]
      ∧ hs.length = 8
      ∧ mlk.weekday = 0 ∧ mem.weekday = 0 ∧ lab.weekday = 0 ∧ tg.weekday = 3 :=
  trash_C7 2026 (by decide) (by decide)

/-- C8: with the default anchor Monday 2026-01-05 classified "Paper",
    get_recycling_type_for_date returns "Commingled" for 2026-01-12 and
    "Paper" for 2026-01-19. -/
theorem trash_C8 :
    get_recycling_type_for_date FIRST_PAPER_2026 = "Paper"
      ∧ get_recycling_type_for_date ⟨2026, 1, 12⟩ = "Commingled"
      ∧ get_recycling_type_for_date ⟨2026, 1, 19⟩ = "Paper" := by
  decide

/-- C9: for every zone string outside the fixed four-zone set and every date,
    get_shifted_collection_day returns the empty string (the code's no-shift
    null) and get_next_holiday_shift returns None; neither raises. -/
theorem trash_C9 (zone : String) (hz : zone ∉ ZONE_SET) (d : Date) :
    get_shifted_collection_day d zone = ""
      ∧ get_next_holiday_shift zone d = some none := by
  have h1 : ¬zone = "Zone 1" := by intro he; exact hz (by rw [he]; decide)
  have h2 : ¬zone = "Zone 2" := by intro he; exact hz (by rw [he]; decide)
  have h3 : ¬zone = "Zone 3" := by intro he; exact hz (by rw [he]; decide)
  have h4 : ¬zone = "Zone 4" := by intro he; exact hz (by rw [he]; decide)
  have e1 : ("Zone 1" == zone) = false := by simp [beq_iff_eq]; exact fun he => h1 he.symm
  have e2 : ("Zone 2" == zone) = false := by simp [beq_iff_eq]; exact fun he => h2 he.symm
  have e3 : ("Zone 3" == zone) = false := by simp [beq_iff_eq]; exact fun he => h3 he.symm
  have e4 : ("Zone 4" == zone) = false := by simp [beq_iff_eq]; exact fun he => h4 he.symm
  constructor
  · unfold get_shifted_collection_day dictGet HOLIDAY_SHIFT_RULES
    simp [List.find?, e1, e2, e3, e4]
  · unfold get_next_holiday_shift
    rw [if_pos]
    right
    unfold dictGet ZONE_URLS
    simp [List.find?, e1, e2, e3, e4]

/-- Witness for C9 at the undefined zone string "Zone 5". -/
theorem trash_C9_witness :
    get_shifted_collection_day ⟨2026, 1, 1⟩ "Zone 5" = ""
      ∧ get_next_holiday_shift "Zone 5" ⟨2026, 1, 1⟩ = some none :=
  trash_C9 "Zone 5" (by decide) ⟨2026, 1, 1⟩

/-- C10: every date whose ISO-week Monday is not one of the 53 consecutive
    Mondays generated from the configured first Paper Monday (default
    2026-01-05) is classified with the hard-coded default "Paper". -/
theorem trash_C10 (d : Date)
    (h : ∀ i, i < 53 → mondayOrd d.toOrd ≠ FIRST_PAPER_2026.toOrd + 7 * i) :
    get_recycling_type_for_date d = "Paper" := by
  unfold get_recycling_type_for_date recyclingTypeOfOrd dictGet
  have hnone : (RECYCLING_SCHEDULE.find? (fun p => p.1 == mondayOrd d.toOrd)) = none := by
    rw [List.find?_eq_none]
    intro x hx
    unfold RECYCLING_SCHEDULE build_alternating_schedule at hx
    simp only [List.mem_map, List.mem_range] at hx
    obtain ⟨i, hi, rfl⟩ := hx
    simp only [beq_iff_eq]
    exact fun he => h i hi he.symm
  rw [hnone]
  rfl

/-- Witness for C10 at 2025-12-29, the Monday one week before the anchor. -/
theorem trash_C10_witness :
    get_recycling_type_for_date ⟨2025, 12, 29⟩ = "Paper" :=
  trash_C10 ⟨2025, 12, 29⟩ (by decide)

end TrashBot
